import Mathlib

/-!
Verification development for the type-encoding module of this repository
(src/monkeytype/encoding.py).  The functions of that module are embedded
shallowly: Python runtime objects that the codec can touch become the
inductive type `PyObj`, the JSON-serializable dictionaries produced by
`type_to_dict` become the inductive type `TypeDict`, and Python exception
propagation becomes the `Except PyErr` monad, written out as explicit
`match` chains so that one Python statement corresponds to one match.

The module imports a handful of helpers from sibling modules that are not
part of the three source files (monkeytype.compat, monkeytype.util,
monkeytype.typing, monkeytype.tracing, monkeytype.exceptions).  Those
helpers are modelled from the spec; each such definition carries a doc
comment starting with "Modelled from the spec:".
-/

/-- Modelled from the spec: `TypeDetails` (from monkeytype.tracing, not under
src/) is an opaque secondary payload that the spec says is "present but never
populated or consumed meaningfully"; we model it as an opaque string. -/
abbrev TypeDetails : Type := String

/-- The Python exceptions that the encoding module can raise or propagate:
`NameLookupError` and `InvalidTypeError` are the two error kinds of the spec,
`AttributeError` arises from attribute access on objects lacking the
attribute, and `TypeError` arises from the typing module's subscript
parameter check. -/
inductive PyErr where
  | nameLookupError (msg : String)
  | invalidTypeError (msg : String)
  | attributeError (msg : String)
  | typeError (msg : String)
deriving DecidableEq, Repr

/-- The Python runtime objects the codec can encounter: ordinary classes
(identified by their `__module__` and `__qualname__`), the `Any` sentinel,
the bare `Union` special form, a parameterized union, an unparameterized
generic origin (e.g. `typing.List`), a parameterized generic alias
(e.g. `List[int]`), and a plain integer constant standing for an arbitrary
non-type object reachable by name lookup. -/
inductive PyObj where
  | cls (module : String) (qualname : String)
  | anySentinel
  | unionOrigin
  | unionAlias (args : List PyObj)
  | genericOrigin (module : String) (qualname : String)
  | genericAlias (module : String) (qualname : String) (args : List PyObj)
  | intConst (n : Int)

/-- Modelled from the spec: `is_union` from monkeytype.compat (not under
src/) recognizes a union-of-types construct, parameterized or not. -/
def is_union : PyObj → Bool
  | .unionOrigin => true
  | .unionAlias _ => true
  | _ => false

/-- Modelled from the spec: `is_any` from monkeytype.compat (not under src/)
recognizes the unconstrained-type sentinel. -/
def is_any : PyObj → Bool
  | .anySentinel => true
  | _ => false

/-- Modelled from the spec: `is_generic` from monkeytype.compat (not under
src/) recognizes generics, including the union construct (which the typing
module implements as a generic and which must be subscriptable at decode
time). -/
def is_generic : PyObj → Bool
  | .unionOrigin => true
  | .unionAlias _ => true
  | .genericOrigin _ _ => true
  | .genericAlias _ _ _ => true
  | _ => false

/-- Modelled from the spec: `qualname_of_generic` from monkeytype.compat
(not under src/) yields "the generic's own qualified name (not the qualified
name of the module-level declaration, since generics may be synthesized)".
For a union construct it would yield the placeholder name; `type_to_dict`
never consults it there because the union branch is tested first.  The
function is never applied to non-generics; we return "" on that dead
branch. -/
def qualname_of_generic : PyObj → String
  | .genericOrigin _ q => q
  | .genericAlias _ q _ => q
  | .unionOrigin => "Union"
  | .unionAlias _ => "Union"
  | _ => ""

/-- Attribute access `typ.__module__`.  Classes and generics carry their
declaring module; the typing module's sentinels live in module "typing";
an integer constant has no `__module__` and raises AttributeError. -/
def dunder_module : PyObj → Except PyErr String
  | .cls m _ => .ok m
  | .anySentinel => .ok "typing"
  | .unionOrigin => .ok "typing"
  | .unionAlias _ => .ok "typing"
  | .genericOrigin m _ => .ok m
  | .genericAlias m _ _ => .ok m
  | .intConst _ => .error (.attributeError "int object has no attribute __module__")

/-- Attribute access `typ.__qualname__`.  Only ordinary classes are reached
on this path by `type_to_dict` (unions, Any and generics are filtered out
first); generic objects forward the attribute to their origin, while the
sentinels and non-type constants raise AttributeError. -/
def dunder_qualname : PyObj → Except PyErr String
  | .cls _ q => .ok q
  | .genericOrigin _ q => .ok q
  | .genericAlias _ q _ => .ok q
  | .anySentinel => .error (.attributeError "Any has no attribute __qualname__")
  | .unionOrigin => .error (.attributeError "Union has no attribute __qualname__")
  | .unionAlias _ => .error (.attributeError "Union has no attribute __qualname__")
  | .intConst _ => .error (.attributeError "int object has no attribute __qualname__")

/-- Attribute access `getattr(typ, '__args__', None)`: the type arguments of
a parameterized generic or union, `None` for every other object. -/
def dunder_args : PyObj → Option (List PyObj)
  | .unionAlias args => some args
  | .genericAlias _ _ args => some args
  | _ => none

/-- The JSON-serializable dictionary form of a type, as documented in the
source comment block (encoding.py lines 32-47): keys `module`, `qualname`
and an optional `elem_types` holding the recursively encoded type
arguments. -/
inductive TypeDict where
  | mk (module : String) (qualname : String) (elem_types : Option (List TypeDict))

def TypeDict.module : TypeDict → String
  | .mk m _ _ => m

def TypeDict.qualname : TypeDict → String
  | .mk _ q _ => q

def TypeDict.elem_types : TypeDict → Option (List TypeDict)
  | .mk _ _ e => e

/-- Lookup `d.get('type_detailss')` performed by `type_from_dict`
(encoding.py line 110).  `type_to_dict` writes only the keys `module`,
`qualname` and `elem_types` (see the source comment block, lines 32-39), so
on every record of that shape the lookup yields `None`.  (The key name in
the source is additionally misspelled, so even a record carrying a
`type_details` key would not be found.) -/
def TypeDict.get_type_detailss (_ : TypeDict) : Option TypeDetails := none

mutual
/-- Embedding of `type_to_dict` (encoding.py lines 50-73): compute the
qualname (Union and Any placeholders first, then generics via
`qualname_of_generic`, then the class's own `__qualname__`), attach the
declaring module, and when `getattr(typ, '__args__', None)` is truthy (a
non-empty tuple) and the input is a recognized generic, recursively encode
the type arguments as `elem_types`.  The `typ_detail` parameter (default
`None` in the source) is accepted and ignored, exactly as in the source. -/
def type_to_dict (typ : PyObj) (typ_detail : Option TypeDetails) : Except PyErr TypeDict :=
  match (if is_union typ then Except.ok "Union"
         else if is_any typ then Except.ok "Any"
         else if is_generic typ then Except.ok (qualname_of_generic typ)
         else dunder_qualname typ : Except PyErr String) with
  | .error e => .error e
  | .ok qualname =>
    match dunder_module typ with
    | .error e => .error e
    | .ok module =>
      match h : dunder_args typ with
      | some elem_types =>
        if !elem_types.isEmpty && is_generic typ then
          match type_to_dict_list elem_types with
          | .error e => .error e
          | .ok ds => .ok (TypeDict.mk module qualname (some ds))
        else .ok (TypeDict.mk module qualname none)
      | none => .ok (TypeDict.mk module qualname none)
termination_by sizeOf typ
decreasing_by
  simp_wf
  cases typ <;> simp_all [dunder_args] <;> omega

/-- The list comprehension `[type_to_dict(t) for t in elem_types]`
(encoding.py line 72): each element is encoded in order with the default
`typ_detail = None`; the first exception propagates. -/
def type_to_dict_list (ts : List PyObj) : Except PyErr (List TypeDict) :=
  match ts with
  | [] => .ok []
  | t :: rest =>
    match type_to_dict t none with
    | .error e => .error e
    | .ok d =>
      match type_to_dict_list rest with
      | .error e => .error e
      | .ok ds => .ok (d :: ds)
termination_by sizeOf ts
decreasing_by
  all_goals simp_wf <;> omega
end

/-- Modelled from the spec: `NoneType` from monkeytype.typing (not under
src/) is "the type of the null/none value", which in Python is the class
named `NoneType` declared in `builtins` yet "has no directly nameable
equivalent in the reflection namespace". -/
def NoneType : PyObj := .cls "builtins" "NoneType"

/-- Embedding of `_HIDDEN_BUILTIN_TYPES` (encoding.py lines 76-79): the
fixed table of hidden built-in types, keyed by qualname; its single entry
is `NoneType`, which is only accessible via `type(None)`. -/
def HIDDEN_BUILTIN_TYPES : List (String × PyObj) := [("NoneType", NoneType)]

/-- A reflection environment: the loaded modules, each a mapping from
attribute name to the object it holds. -/
def PyEnv : Type := List (String × List (String × PyObj))

/-- Modelled from the spec: `get_name_in_module` from monkeytype.util (not
under src/) resolves `qualname` as an attribute of the named module and
"fails with NameLookupError if the module cannot be found or the attribute
does not exist". -/
def get_name_in_module (env : PyEnv) (module : String) (qualname : String) : Except PyErr PyObj :=
  match List.lookup module env with
  | none => .error (.nameLookupError ("no module named " ++ module))
  | some attrs =>
    match List.lookup qualname attrs with
    | none => .error (.nameLookupError (qualname ++ " does not exist in module " ++ module))
    | some obj => .ok obj

/-- The Python `isinstance(typ, type)` test restricted to our object
universe: only ordinary classes are instances of `type` (typing's aliases
and special forms are not classes, and an integer certainly is not). -/
def isinstance_type : PyObj → Bool
  | .cls _ _ => true
  | _ => false

/-- The text `str(type(typ))` interpolated into the InvalidTypeError
message.  Only non-type objects ever reach that message; for our concrete
non-type witness, an integer, Python prints `<class 'int'>` (rendered here
without the inner quote marks). -/
def py_type_repr : PyObj → String
  | .cls _ _ => "<class type>"
  | .anySentinel => "<class typing._SpecialForm>"
  | .unionOrigin => "<class typing._SpecialForm>"
  | .unionAlias _ => "<class typing._GenericAlias>"
  | .genericOrigin _ _ => "<class typing._GenericAlias>"
  | .genericAlias _ _ _ => "<class typing._GenericAlias>"
  | .intConst _ => "<class int>"

/-- A Python value passed as a subscript parameter to a generic: either a
bare object, or a tuple `(type, details)` as built by the recursion in
`type_from_dict` (encoding.py line 105). -/
inductive PyVal where
  | obj (o : PyObj)
  | pair (o : PyObj) (d : Option TypeDetails)

/-- Whether an object is acceptable to the typing module as a type
parameter: classes, the sentinels and generic constructs are; a plain
integer is not (and a tuple never is, see `type_check_param`). -/
def acceptable_type_param : PyObj → Bool
  | .cls _ _ => true
  | .anySentinel => true
  | .unionOrigin => true
  | .unionAlias _ => true
  | .genericOrigin _ _ => true
  | .genericAlias _ _ _ => true
  | .intConst _ => false

/-- Modelled from the Python typing module (stdlib, not part of this
repository): subscripting a generic applies `_type_check` to each
parameter; a parameter that is not type-like — in particular any tuple,
such as the `(type, details)` pairs produced by `type_from_dict` — raises
`TypeError("Parameters to generic types must be types.")`. -/
def type_check_param : PyVal → Except PyErr PyObj
  | .obj o =>
    if acceptable_type_param o then .ok o
    else .error (.typeError "Parameters to generic types must be types.")
  | .pair _ _ => .error (.typeError "Parameters to generic types must be types.")

def type_check_params (params : List PyVal) : Except PyErr (List PyObj) :=
  match params with
  | [] => .ok []
  | p :: rest =>
    match type_check_param p with
    | .error e => .error e
    | .ok o =>
      match type_check_params rest with
      | .error e => .error e
      | .ok os => .ok (o :: os)

/-- Modelled from the Python typing module (stdlib): the subscript
`typ[params]` on a generic origin checks every parameter with `_type_check`
and then produces the parameterized alias; subscripting an already
parameterized alias is a TypeError. -/
def generic_subscript (typ : PyObj) (params : List PyVal) : Except PyErr PyObj :=
  match type_check_params params with
  | .error e => .error e
  | .ok checked =>
    match typ with
    | .genericOrigin m q => .ok (.genericAlias m q checked)
    | .unionOrigin => .ok (.unionAlias checked)
    | _ => .error (.typeError "object is not subscriptable")

mutual
/-- Embedding of `type_from_dict` (encoding.py lines 82-110): look the
module/qualname pair up in the hidden-builtins table (only consulted, per
the source guard, when the module is `builtins`), otherwise resolve it in
the environment; validate that the resolved object is a type, the Any
sentinel or a recognized generic, raising InvalidTypeError otherwise; when
`elem_types` is present (and truthy) and the object is generic, recursively
decode the element records — each recursive call returning a `(type,
details)` pair, exactly as in the source — and subscript the generic with
those pairs; finally return the type together with `d.get('type_detailss')`. -/
def type_from_dict (env : PyEnv) (d : TypeDict) : Except PyErr (PyObj × Option TypeDetails) :=
  match (if d.module == "builtins" then List.lookup d.qualname HIDDEN_BUILTIN_TYPES else none) with
  | some hidden => type_from_dict_validated env d hidden
  | none =>
    match get_name_in_module env d.module d.qualname with
    | .error e => .error e
    | .ok typ => type_from_dict_validated env d typ
termination_by (sizeOf d, 1)

/-- Continuation of `type_from_dict` after the name has been resolved to an
object `typ` (encoding.py lines 94-110): the validation guard, the element
decoding and the final pair construction. -/
def type_from_dict_validated (env : PyEnv) (d : TypeDict) (typ : PyObj) :
    Except PyErr (PyObj × Option TypeDetails) :=
  if ¬ (isinstance_type typ ∨ is_any typ ∨ is_generic typ) then
    .error (.invalidTypeError ("Attribute specified by " ++ d.qualname ++ " in module "
      ++ d.module ++ " is of type " ++ py_type_repr typ ++ ", not type."))
  else
    match h : d.elem_types with
    | some elem_type_dicts =>
      if !elem_type_dicts.isEmpty && is_generic typ then
        match type_from_dict_list env elem_type_dicts with
        | .error e => .error e
        | .ok elem_types =>
          match generic_subscript typ (elem_types.map fun p => PyVal.pair p.1 p.2) with
          | .error e => .error e
          | .ok typ2 => .ok (typ2, d.get_type_detailss)
      else .ok (typ, d.get_type_detailss)
    | none => .ok (typ, d.get_type_detailss)
termination_by (sizeOf d, 0)
decreasing_by
  simp_wf
  cases d <;> simp_all [TypeDict.elem_types] <;> omega

/-- The generator expression `tuple(type_from_dict(e) for e in
elem_type_dicts)` (encoding.py line 105): each element record is decoded in
order to a `(type, details)` pair; the first exception propagates. -/
def type_from_dict_list (env : PyEnv) (ds : List TypeDict) :
    Except PyErr (List (PyObj × Option TypeDetails)) :=
  match ds with
  | [] => .ok []
  | d :: rest =>
    match type_from_dict env d with
    | .error e => .error e
    | .ok p =>
      match type_from_dict_list env rest with
      | .error e => .error e
      | .ok ps => .ok (p :: ps)
termination_by (sizeOf ds, 2)
decreasing_by
  all_goals simp_wf <;> omega
end

mutual
/-- The stdlib `json.dumps(type_dict, sort_keys=True)` step specialized to
the record shape produced by `type_to_dict`: the keys are emitted in sorted
order (`elem_types` < `module` < `qualname`), with the default separators.
String values in these records are module paths and qualified names, which
contain no characters needing JSON escaping. -/
def typeDict_to_json_string (d : TypeDict) : String :=
  match h : d.elem_types with
  | some ts =>
    "\x7b\"elem_types\": [" ++ typeDict_list_to_json_string ts ++ "], \"module\": \""
      ++ d.module ++ "\", \"qualname\": \"" ++ d.qualname ++ "\"\x7d"
  | none =>
    "\x7b\"module\": \"" ++ d.module ++ "\", \"qualname\": \"" ++ d.qualname ++ "\"\x7d"
termination_by sizeOf d
decreasing_by
  simp_wf
  cases d <;> simp_all [TypeDict.elem_types] <;> omega

/-- Comma-separated JSON rendering of a list of records. -/
def typeDict_list_to_json_string (ts : List TypeDict) : String :=
  match ts with
  | [] => ""
  | [d] => typeDict_to_json_string d
  | d :: rest => typeDict_to_json_string d ++ ", " ++ typeDict_list_to_json_string rest
termination_by sizeOf ts
decreasing_by
  all_goals simp_wf <;> omega
end

/-- Embedding of `type_to_json` (encoding.py lines 113-117): encode with
`type_to_dict`, then serialize with sorted keys. -/
def type_to_json (typ : PyObj) (type_details : Option TypeDetails) : Except PyErr String :=
  match type_to_dict typ type_details with
  | .error e => .error e
  | .ok type_dict => .ok (typeDict_to_json_string type_dict)

/-- Insertion step of the key sort performed by `json.dumps(_,
sort_keys=True)` on the argument-name dictionary. -/
def insert_by_key (p : String × TypeDict) (ps : List (String × TypeDict)) :
    List (String × TypeDict) :=
  match ps with
  | [] => [p]
  | q :: rest => if p.1 ≤ q.1 then p :: q :: rest else q :: insert_by_key p rest

/-- Key sort performed by `json.dumps(_, sort_keys=True)` on the
argument-name dictionary (insertion sort; the keys of a Python dict are
unique, so any stable comparison sort yields the same text). -/
def sort_by_key (ps : List (String × TypeDict)) : List (String × TypeDict) :=
  match ps with
  | [] => []
  | p :: rest => insert_by_key p (sort_by_key rest)

/-- JSON object rendering of the argument-name dictionary. -/
def arg_dict_entries_to_json_string (ps : List (String × TypeDict)) : String :=
  match ps with
  | [] => ""
  | [(name, d)] => "\"" ++ name ++ "\": " ++ typeDict_to_json_string d
  | (name, d) :: rest =>
    "\"" ++ name ++ "\": " ++ typeDict_to_json_string d ++ ", "
      ++ arg_dict_entries_to_json_string rest

/-- The dict comprehension `{name: type_to_dict(typ) for name, typ in
arg_types.items()}` (encoding.py line 128): entries are encoded in
iteration order and the first exception propagates. -/
def arg_types_to_dict_list (arg_types : List (String × PyObj)) :
    Except PyErr (List (String × TypeDict)) :=
  match arg_types with
  | [] => .ok []
  | (name, typ) :: rest =>
    match type_to_dict typ none with
    | .error e => .error e
    | .ok d =>
      match arg_types_to_dict_list rest with
      | .error e => .error e
      | .ok ds => .ok ((name, d) :: ds)

/-- Embedding of `arg_types_to_json` (encoding.py lines 126-129): encode
every argument type, then serialize the resulting dictionary with sorted
keys. -/
def arg_types_to_json (arg_types : List (String × PyObj)) : Except PyErr String :=
  match arg_types_to_dict_list arg_types with
  | .error e => .error e
  | .ok type_dict =>
    .ok ("\x7b" ++ arg_dict_entries_to_json_string (sort_by_key type_dict) ++ "\x7d")

/-- Embedding of `arg_types_and_details_from_json` (encoding.py lines
132-135).  The source first parses the JSON text with the stdlib
`json.loads`; we embed the function from the parsed mapping (argument name
to encoded record, in JSON object order) onwards.  The dict comprehension
decodes every entry in order; the first exception propagates out of the
whole call, so no partial mapping is ever returned. -/
def arg_types_and_details_from_json (env : PyEnv) (arg_types : List (String × TypeDict)) :
    Except PyErr (List (String × (PyObj × Option TypeDetails))) :=
  match arg_types with
  | [] => .ok []
  | (name, type_dict) :: rest =>
    match type_from_dict env type_dict with
    | .error e => .error e
    | .ok p =>
      match arg_types_and_details_from_json env rest with
      | .error e => .error e
      | .ok ps => .ok ((name, p) :: ps)

/-- Embedding of `maybe_encode_type` (encoding.py lines 141-146): `None`
stays `None`; otherwise the supplied encoder is applied. -/
def maybe_encode_type (encode : PyObj → Option TypeDetails → Except PyErr String)
    (typ : Option PyObj) (typ_details : Option TypeDetails) : Except PyErr (Option String) :=
  match typ with
  | none => .ok none
  | some t =>
    match encode t typ_details with
    | .error e => .error e
    | .ok s => .ok (some s)

/-- Embedding of `maybe_decode_type` (encoding.py lines 152-156): when the
encoded argument is `None` or the string "null" the result is `None` and
the supplied decoder is not invoked; otherwise the decoder's result (or
exception) is returned unchanged. -/
def maybe_decode_type (decode : String → Except PyErr (Option (PyObj × Option TypeDetails)))
    (encoded : Option String) : Except PyErr (Option (PyObj × Option TypeDetails)) :=
  match encoded with
  | none => .ok none
  | some s => if s == "null" then .ok none else decode s

/-- Modelled from the spec: a traced function, identified by the
`__module__` and `__qualname__` attributes that `from_trace` reads. -/
structure PyFunc where
  module : String
  qualname : String

/-- Modelled from the spec: `CallTrace` from monkeytype.tracing (not under
src/) — a captured record of a single function invocation's observed
argument types and optional return/yield types, together with the reserved
detail payloads that `from_trace` reads. -/
structure CallTrace where
  func : PyFunc
  arg_types : List (String × PyObj)
  return_type : Option PyObj
  return_type_detail : Option TypeDetails
  yield_type : Option PyObj
  yield_type_detail : Option TypeDetails

/-- Embedding of `CallTraceRow` (encoding.py lines 169-186): a
semi-structured call trace where each field has been json encoded. -/
structure CallTraceRow where
  module : String
  qualname : String
  arg_types : String
  return_type : Option String
  yield_type : Option String
  return_type_detail : Option TypeDetails
deriving DecidableEq, Repr

/-- Embedding of `CallTraceRow.from_trace` (encoding.py lines 188-204): the
constructor arguments are evaluated in order (argument types, then return
type, then yield type) and any exception propagates; the
`return_type_detail` field is left at its default `None`. -/
def CallTraceRow.from_trace (trace : CallTrace) : Except PyErr CallTraceRow :=
  match arg_types_to_json trace.arg_types with
  | .error e => .error e
  | .ok arg_types =>
    match maybe_encode_type type_to_json trace.return_type trace.return_type_detail with
    | .error e => .error e
    | .ok return_type =>
      match maybe_encode_type type_to_json trace.yield_type trace.yield_type_detail with
      | .error e => .error e
      | .ok yield_type =>
        .ok ⟨trace.func.module, trace.func.qualname, arg_types, return_type, yield_type, none⟩

/-- Embedding of `CallTraceRow.__eq__` (encoding.py lines 224-239): the
five-field tuples are compared; `return_type_detail` does not participate.
In the typed embedding the other operand is always a `CallTraceRow`, so the
`NotImplemented` branch for foreign operand types does not arise. -/
def CallTraceRow.eq (a : CallTraceRow) (other : CallTraceRow) : Bool :=
  (a.module, a.qualname, a.arg_types, a.return_type, a.yield_type)
    == (other.module, other.qualname, other.arg_types, other.return_type, other.yield_type)

/-- Embedding of `serialize_traces` (encoding.py lines 242-253): each trace
is serialized independently; a trace whose serialization raises is logged
(a side effect outside this embedding) and skipped, and the remaining
traces are still produced, in order. -/
def serialize_traces (traces : List CallTrace) : List CallTraceRow :=
  match traces with
  | [] => []
  | trace :: rest =>
    match CallTraceRow.from_trace trace with
    | .ok row => row :: serialize_traces rest
    | .error _ => serialize_traces rest

/-- The class `builtins.int`, used as a concrete sample type. -/
def int_cls : PyObj := .cls "builtins" "int"

/-- The class `builtins.str`, used as a concrete sample type. -/
def str_cls : PyObj := .cls "builtins" "str"

/-- A sample reflection environment holding the builtins and typing names
that the concrete witnesses resolve.  It deliberately has no `NoneType`
attribute under `builtins`: that name is reachable only through the
hidden-builtins table, as in Python. -/
def sampleEnv : PyEnv :=
  [("builtins", [("int", int_cls), ("str", str_cls)]),
   ("typing", [("List", .genericOrigin "typing" "List"), ("Dict", .genericOrigin "typing" "Dict"),
               ("Any", .anySentinel), ("Union", .unionOrigin)])]

/-- A serializable sample trace: `mymod.f(x: int) -> str`. -/
def sample_trace_f : CallTrace :=
  ⟨⟨"mymod", "f"⟩, [("x", int_cls)], some str_cls, none, none, none⟩

/-- A sample trace that cannot be serialized: its argument "type" is the
integer 5, which has no `__qualname__`, so `type_to_dict` raises inside
`from_trace`. -/
def sample_trace_g_bad : CallTrace :=
  ⟨⟨"mymod", "g"⟩, [("x", PyObj.intConst 5)], none, none, none, none⟩

/-- A serializable sample trace: a generator `mymod.h()` yielding int. -/
def sample_trace_h : CallTrace :=
  ⟨⟨"mymod", "h"⟩, [], none, none, some int_cls, none⟩

/-- The row `from_trace` produces for `sample_trace_f`. -/
def sample_row_f : CallTraceRow :=
  ⟨"mymod", "f", "\x7b\"x\": \x7b\"module\": \"builtins\", \"qualname\": \"int\"\x7d\x7d",
    some "\x7b\"module\": \"builtins\", \"qualname\": \"str\"\x7d", none, none⟩

/-- The row `from_trace` produces for `sample_trace_h`. -/
def sample_row_h : CallTraceRow :=
  ⟨"mymod", "h", "\x7b\x7d", none,
    some "\x7b\"module\": \"builtins\", \"qualname\": \"int\"\x7d", none⟩

/-- A sample decoder for the `maybe_decode_type` witness. -/
def sample_decoder : String → Except PyErr (Option (PyObj × Option TypeDetails)) :=
  fun _ => .ok (some (int_cls, none))

theorem serialize_traces_append (a b : List CallTrace) :
    serialize_traces (a ++ b) = serialize_traces a ++ serialize_traces b := by
  induction a with
  | nil => simp [serialize_traces]
  | cons t rest ih =>
    rw [List.cons_append, serialize_traces, serialize_traces]
    split <;> simp [ih]

theorem serialize_traces_length_le (a : List CallTrace) :
    (serialize_traces a).length ≤ a.length := by
  induction a with
  | nil => simp [serialize_traces]
  | cons t rest ih =>
    rw [serialize_traces]
    split
    · simpa using ih
    · simp
      omega

/-- C1 (code bug): the spec's round-trip identity — `type_from_dict` after
`type_to_dict` reproduces the type, recursively for nested generics — is
also promised by the source docstrings (encoding.py lines 51-55 and 83),
and it holds for plain classes; but for every parameterized generic the
decoder raises: the recursion at line 105 produces `(type, details)` pairs
and line 109 subscripts the generic with those pairs, which the typing
module's parameter check rejects with TypeError.  Evaluated here on the
sequence-of-int generic: encoding succeeds; decoding the resulting record
raises TypeError instead of returning the type; the same environment
round-trips the plain class `int`; and subscripting with the bare types —
what line 109 manifestly intends — would have produced the original
generic. -/
theorem generic_round_trip_code_bug :
    type_to_dict (PyObj.genericAlias "typing" "List" [int_cls]) none
        = .ok (TypeDict.mk "typing" "List" (some [TypeDict.mk "builtins" "int" none])) ∧
    type_from_dict sampleEnv (TypeDict.mk "typing" "List" (some [TypeDict.mk "builtins" "int" none]))
        = .error (.typeError "Parameters to generic types must be types.") ∧
    type_from_dict sampleEnv (TypeDict.mk "builtins" "int" none) = .ok (int_cls, none) ∧
    generic_subscript (PyObj.genericOrigin "typing" "List") [PyVal.obj int_cls]
        = .ok (PyObj.genericAlias "typing" "List" [int_cls]) := by
  refine ⟨?_, ?_, ?_, ?_⟩
  · simp [type_to_dict, type_to_dict_list, is_union, is_any, is_generic, qualname_of_generic,
      dunder_module, dunder_args, int_cls, dunder_qualname]
  · simp [type_from_dict, type_from_dict_validated, type_from_dict_list, sampleEnv,
      get_name_in_module, TypeDict.module, TypeDict.qualname, TypeDict.elem_types,
      HIDDEN_BUILTIN_TYPES, NoneType, isinstance_type, is_any, is_generic, is_union,
      generic_subscript, type_check_params, type_check_param, acceptable_type_param,
      TypeDict.get_type_detailss, int_cls, List.lookup]
  · simp [type_from_dict, type_from_dict_validated, sampleEnv, get_name_in_module,
      TypeDict.module, TypeDict.qualname, TypeDict.elem_types, HIDDEN_BUILTIN_TYPES, NoneType,
      isinstance_type, int_cls, TypeDict.get_type_detailss, List.lookup]
  · simp [generic_subscript, type_check_params, type_check_param, acceptable_type_param,
      int_cls]

/-- C2: `type_to_dict` sets the record's qualname to "Union" for a
union-of-types construct (parameterized or bare), to "Any" for the
unconstrained-type sentinel, to the generic's own qualified name for a
parameterized generic, and to the type's own `__qualname__` otherwise. -/
theorem type_to_dict_qualname_cases :
    (∀ args det d, type_to_dict (PyObj.unionAlias args) det = .ok d → d.qualname = "Union") ∧
    (∀ det d, type_to_dict PyObj.unionOrigin det = .ok d → d.qualname = "Union") ∧
    (∀ det d, type_to_dict PyObj.anySentinel det = .ok d → d.qualname = "Any") ∧
    (∀ m q args det d, type_to_dict (PyObj.genericAlias m q args) det = .ok d → d.qualname = q) ∧
    (∀ m q det d, type_to_dict (PyObj.cls m q) det = .ok d → d.qualname = q) := by
  refine ⟨?_, ?_, ?_, ?_, ?_⟩
  · intro args det d h
    rw [type_to_dict] at h
    simp [is_union, is_any, is_generic, qualname_of_generic, dunder_module, dunder_args] at h
    split at h <;> try split at h
    all_goals first
      | (injection h with h2; subst h2; rfl)
      | simp at h
  · intro det d h
    rw [type_to_dict] at h
    simp [is_union, is_any, is_generic, dunder_module, dunder_args] at h
    subst h
    rfl
  · intro det d h
    rw [type_to_dict] at h
    simp [is_union, is_any, is_generic, dunder_module, dunder_args] at h
    subst h
    rfl
  · intro m q args det d h
    rw [type_to_dict] at h
    simp [is_union, is_any, is_generic, qualname_of_generic, dunder_module, dunder_args] at h
    split at h <;> try split at h
    all_goals first
      | (injection h with h2; subst h2; rfl)
      | simp at h
  · intro m q det d h
    rw [type_to_dict] at h
    simp [is_union, is_any, is_generic, dunder_module, dunder_args, dunder_qualname] at h
    subst h
    rfl

/-- Witness for C2: the four qualname cases evaluated at a two-type union,
the Any sentinel, the sequence-of-int generic, and the class `int`. -/
theorem type_to_dict_qualname_cases_witness :
    (TypeDict.mk "typing" "Union" (some [TypeDict.mk "builtins" "int" none,
        TypeDict.mk "builtins" "str" none])).qualname = "Union" ∧
    (TypeDict.mk "typing" "Any" none).qualname = "Any" ∧
    (TypeDict.mk "typing" "List" (some [TypeDict.mk "builtins" "int" none])).qualname = "List" ∧
    (TypeDict.mk "builtins" "int" none).qualname = "int" := by
  refine ⟨?_, ?_, ?_, ?_⟩
  · exact type_to_dict_qualname_cases.1 [int_cls, str_cls] none _
      (by simp [type_to_dict, type_to_dict_list, is_union, is_any, is_generic,
        qualname_of_generic, dunder_module, dunder_args, dunder_qualname, int_cls, str_cls])
  · exact type_to_dict_qualname_cases.2.2.1 none _
      (by simp [type_to_dict, is_union, is_any, is_generic, dunder_module, dunder_args])
  · exact type_to_dict_qualname_cases.2.2.2.1 "typing" "List" [int_cls] none _
      (by simp [type_to_dict, type_to_dict_list, is_union, is_any, is_generic,
        qualname_of_generic, dunder_module, dunder_args, dunder_qualname, int_cls])
  · exact type_to_dict_qualname_cases.2.2.2.2 "builtins" "int" none _
      (by simp [type_to_dict, is_union, is_any, is_generic, dunder_module, dunder_args,
        dunder_qualname])

/-- C3: when the module/qualname pair of a record resolves to nothing (the
module is absent from the environment, or present without that attribute)
and the pair is not covered by the hidden-builtins table, `type_from_dict`
propagates a NameLookupError to its caller. -/
theorem type_from_dict_unresolvable (env : PyEnv) (d : TypeDict)
    (hhid : ¬ (d.module = "builtins" ∧ (List.lookup d.qualname HIDDEN_BUILTIN_TYPES).isSome))
    (hlook : List.lookup d.module env = none ∨
      ∃ attrs, List.lookup d.module env = some attrs ∧ List.lookup d.qualname attrs = none) :
    ∃ msg, type_from_dict env d = .error (.nameLookupError msg) := by
  rw [type_from_dict]
  have hnone : (if d.module == "builtins" then List.lookup d.qualname HIDDEN_BUILTIN_TYPES
      else none) = none := by
    by_cases hb : d.module = "builtins"
    · cases hl : List.lookup d.qualname HIDDEN_BUILTIN_TYPES with
      | none => simp only [hb, beq_self_eq_true, if_true, hl]
      | some t => exact absurd ⟨hb, by rw [hl]; rfl⟩ hhid
    · have hb2 : (d.module == "builtins") = false := by simp [hb]
      rw [hb2]
      rfl
  simp only [hnone, get_name_in_module]
  rcases hlook with hmod | ⟨attrs, hattrs, hq⟩
  · exact ⟨"no module named " ++ d.module, by rw [hmod]⟩
  · exact ⟨d.qualname ++ " does not exist in module " ++ d.module, by
      simp only [hattrs]
      rw [hq]⟩

/-- Witness for C3: the spec's concrete record referencing a module that
does not exist, decoded in the empty environment. -/
theorem type_from_dict_unresolvable_witness :
    ∃ msg, type_from_dict [] (TypeDict.mk "nonexistent_module_xyz" "Foo" none)
      = .error (.nameLookupError msg) :=
  type_from_dict_unresolvable [] (TypeDict.mk "nonexistent_module_xyz" "Foo" none)
    (by simp [TypeDict.module, TypeDict.qualname, HIDDEN_BUILTIN_TYPES])
    (Or.inl (by simp [TypeDict.module, List.lookup]))

/-- C4: when the module/qualname pair of a record resolves to an object
that is not a type, not the Any sentinel and not a recognized generic (and
the pair is not covered by the hidden-builtins table), `type_from_dict`
raises InvalidTypeError whose message carries the offending qualname, the
module and the actual kind of the resolved object. -/
theorem type_from_dict_nontype (env : PyEnv) (d : TypeDict) (obj : PyObj)
    (hhid : ¬ (d.module = "builtins" ∧ (List.lookup d.qualname HIDDEN_BUILTIN_TYPES).isSome))
    (hres : ∃ attrs, List.lookup d.module env = some attrs ∧
      List.lookup d.qualname attrs = some obj)
    (hnot : isinstance_type obj = false ∧ is_any obj = false ∧ is_generic obj = false) :
    type_from_dict env d = .error (.invalidTypeError ("Attribute specified by " ++ d.qualname
      ++ " in module " ++ d.module ++ " is of type " ++ py_type_repr obj ++ ", not type.")) := by
  rw [type_from_dict]
  have hnone : (if d.module == "builtins" then List.lookup d.qualname HIDDEN_BUILTIN_TYPES
      else none) = none := by
    by_cases hb : d.module = "builtins"
    · cases hl : List.lookup d.qualname HIDDEN_BUILTIN_TYPES with
      | none => simp only [hb, beq_self_eq_true, if_true, hl]
      | some t => exact absurd ⟨hb, by rw [hl]; rfl⟩ hhid
    · have hb2 : (d.module == "builtins") = false := by simp [hb]
      rw [hb2]
      rfl
  simp only [hnone, get_name_in_module]
  rcases hres with ⟨attrs, hattrs, hq⟩
  simp only [hattrs, hq]
  rw [type_from_dict_validated]
  simp [hnot.1, hnot.2.1, hnot.2.2]

/-- Witness for C4: a record resolving to the plain integer constant 5
yields InvalidTypeError with the qualname, module and actual kind in the
message. -/
theorem type_from_dict_nontype_witness :
    type_from_dict [("somemod", [("SOME_CONST", PyObj.intConst 5)])]
        (TypeDict.mk "somemod" "SOME_CONST" none)
      = .error (.invalidTypeError ("Attribute specified by SOME_CONST in module somemod "
          ++ "is of type <class int>, not type.")) := by
  have := type_from_dict_nontype [("somemod", [("SOME_CONST", PyObj.intConst 5)])]
    (TypeDict.mk "somemod" "SOME_CONST" none) (PyObj.intConst 5)
    (by simp [TypeDict.module])
    ⟨[("SOME_CONST", PyObj.intConst 5)], by simp [TypeDict.module, List.lookup],
      by simp [TypeDict.qualname, List.lookup]⟩
    (by simp [isinstance_type, is_any, is_generic])
  simpa [TypeDict.module, TypeDict.qualname, py_type_repr] using this

/-- C5: `serialize_traces` yields exactly the successfully serialized rows
in input order: the output is never longer than the input, a trace whose
serialization succeeds contributes its row in place, and a trace whose
serialization raises is skipped without discarding any surrounding trace. -/
theorem serialize_traces_best_effort (pre post : List CallTrace) (t : CallTrace) :
    ((serialize_traces (pre ++ t :: post)).length ≤ (pre ++ t :: post).length) ∧
    (∀ r, CallTraceRow.from_trace t = .ok r →
      serialize_traces (pre ++ t :: post)
        = serialize_traces pre ++ r :: serialize_traces post) ∧
    (∀ e, CallTraceRow.from_trace t = .error e →
      serialize_traces (pre ++ t :: post)
        = serialize_traces pre ++ serialize_traces post) := by
  refine ⟨serialize_traces_length_le _, ?_, ?_⟩
  · intro r hr
    rw [serialize_traces_append, serialize_traces]
    simp only [hr]
  · intro e he
    rw [serialize_traces_append, serialize_traces]
    simp only [he]

/-- Witness for C5: of three traces whose second is unserializable, exactly
the rows of the first and third are produced, in order. -/
theorem serialize_traces_best_effort_witness :
    CallTraceRow.from_trace sample_trace_g_bad
        = .error (.attributeError "int object has no attribute __qualname__") ∧
    serialize_traces [sample_trace_f, sample_trace_g_bad, sample_trace_h]
        = [sample_row_f, sample_row_h] := by
  have hbad : CallTraceRow.from_trace sample_trace_g_bad
      = .error (.attributeError "int object has no attribute __qualname__") := by
    simp [CallTraceRow.from_trace, arg_types_to_json, arg_types_to_dict_list, type_to_dict,
      is_union, is_any, is_generic, dunder_qualname, sample_trace_g_bad, maybe_encode_type]
  refine ⟨hbad, ?_⟩
  have hsplit : [sample_trace_f, sample_trace_g_bad, sample_trace_h]
      = [sample_trace_f] ++ sample_trace_g_bad :: [sample_trace_h] := rfl
  rw [hsplit,
    (serialize_traces_best_effort [sample_trace_f] [sample_trace_h] sample_trace_g_bad).2.2
      _ hbad]
  simp [serialize_traces, CallTraceRow.from_trace, arg_types_to_json, arg_types_to_dict_list,
    type_to_dict, is_union, is_any, is_generic, dunder_qualname, dunder_module, dunder_args,
    sample_trace_f, sample_trace_h, int_cls, str_cls, maybe_encode_type, type_to_json,
    typeDict_to_json_string, typeDict_list_to_json_string, sort_by_key, insert_by_key,
    arg_dict_entries_to_json_string, TypeDict.elem_types, TypeDict.module, TypeDict.qualname,
    sample_row_f, sample_row_h]

/-- C6: decoding a batch mapping is all-or-nothing — if any entry's record
fails to decode, the whole call raises and no partial mapping is returned;
if the call returns a mapping, it pairs the input's keys, in order, with
exactly the decoded types of their records. -/
theorem arg_types_batch_all_or_nothing (env : PyEnv) (input : List (String × TypeDict)) :
    ((∃ p ∈ input, ∃ e, type_from_dict env p.2 = .error e) →
      ∃ e2, arg_types_and_details_from_json env input = .error e2) ∧
    (∀ m, arg_types_and_details_from_json env input = .ok m →
      List.Forall₂ (fun p q => q.1 = p.1 ∧ type_from_dict env p.2 = .ok q.2) input m) := by
  induction input with
  | nil =>
    refine ⟨by simp, ?_⟩
    intro m hm
    simp [arg_types_and_details_from_json] at hm
    subst hm
    exact List.Forall₂.nil
  | cons hd tl ih =>
    obtain ⟨name, td⟩ := hd
    constructor
    · rintro ⟨p, hp, e, he⟩
      rw [arg_types_and_details_from_json]
      cases hdec : type_from_dict env td with
      | error e0 => exact ⟨e0, rfl⟩
      | ok pr =>
        rcases List.mem_cons.mp hp with rfl | hmem
        · simp at he
          rw [hdec] at he
          cases he
        · obtain ⟨e2, he2⟩ := ih.1 ⟨p, hmem, e, he⟩
          rw [he2]
          exact ⟨e2, rfl⟩
    · intro m hm
      rw [arg_types_and_details_from_json] at hm
      cases hdec : type_from_dict env td with
      | error e0 =>
        rw [hdec] at hm
        cases hm
      | ok pr =>
        rw [hdec] at hm
        cases htl : arg_types_and_details_from_json env tl with
        | error e2 =>
          rw [htl] at hm
          cases hm
        | ok ps =>
          rw [htl] at hm
          injection hm with hm2
          subst hm2
          exact List.Forall₂.cons ⟨rfl, hdec⟩ (ih.2 ps htl)

/-- Witness for C6: a one-entry batch whose record references a missing
module makes the whole call raise. -/
theorem arg_types_batch_all_or_nothing_witness :
    ∃ e2, arg_types_and_details_from_json []
      [("x", TypeDict.mk "nonexistent_module_xyz" "Foo" none)] = .error e2 := by
  apply (arg_types_batch_all_or_nothing [] _).1
  refine ⟨("x", TypeDict.mk "nonexistent_module_xyz" "Foo" none), by simp,
    PyErr.nameLookupError "no module named nonexistent_module_xyz", ?_⟩
  simp [type_from_dict, get_name_in_module, HIDDEN_BUILTIN_TYPES, TypeDict.module,
    TypeDict.qualname, List.lookup]

/-- C7: decoding the record for the none-type — the entry of the fixed
hidden-builtins table — yields that type directly in every environment,
including environments with no `builtins` module at all, so no module
attribute resolution is performed. -/
theorem hidden_builtin_decode (env : PyEnv) :
    type_from_dict env (TypeDict.mk "builtins" "NoneType" none) = .ok (NoneType, none) := by
  rw [type_from_dict]
  simp [HIDDEN_BUILTIN_TYPES, TypeDict.module, TypeDict.qualname, List.lookup,
    type_from_dict_validated, isinstance_type, NoneType, TypeDict.elem_types,
    TypeDict.get_type_detailss]

/-- C8: two rows are equal exactly when their module, qualname, arg_types,
return_type and yield_type fields agree; the `return_type_detail` payload
is excluded, so rows with identical five fields are equal whatever their
detail values. -/
theorem callTraceRow_eq_spec :
    (∀ a b : CallTraceRow, CallTraceRow.eq a b = true ↔
      (a.module = b.module ∧ a.qualname = b.qualname ∧ a.arg_types = b.arg_types ∧
       a.return_type = b.return_type ∧ a.yield_type = b.yield_type)) ∧
    (∀ m q argTypes rt yt d1 d2,
      CallTraceRow.eq (CallTraceRow.mk m q argTypes rt yt d1)
        (CallTraceRow.mk m q argTypes rt yt d2) = true) := by
  constructor
  · intro a b
    simp [CallTraceRow.eq, and_assoc]
  · intro m q argTypes rt yt d1 d2
    simp [CallTraceRow.eq]

/-- C9: whatever type and detail argument are passed to the encoder, a
successful decode of the encoding always returns `None` in the companion
detail slot — the decode path never populates it. -/
theorem decode_detail_always_none (typ : PyObj) (det : Option TypeDetails) (env : PyEnv)
    (d : TypeDict) (r : PyObj × Option TypeDetails)
    (henc : type_to_dict typ det = .ok d)
    (hdec : type_from_dict env d = .ok r) : r.2 = none := by
  clear henc
  rw [type_from_dict] at hdec
  split at hdec
  · rw [type_from_dict_validated] at hdec
    split at hdec
    · simp at hdec
    · split at hdec
      · split at hdec
        · split at hdec
          · simp at hdec
          · split at hdec
            · simp at hdec
            · injection hdec with h2
              subst h2
              rfl
        · injection hdec with h2
          subst h2
          rfl
      · injection hdec with h2
        subst h2
        rfl
  · split at hdec
    · simp at hdec
    · rw [type_from_dict_validated] at hdec
      split at hdec
      · simp at hdec
      · split at hdec
        · split at hdec
          · split at hdec
            · simp at hdec
            · split at hdec
              · simp at hdec
              · injection hdec with h2
                subst h2
                rfl
          · injection hdec with h2
            subst h2
            rfl
        · injection hdec with h2
          subst h2
          rfl

/-- Witness for C9: encoding and decoding the class `int` succeeds and the
companion detail slot of the result is `None`. -/
theorem decode_detail_always_none_witness :
    type_to_dict int_cls none = .ok (TypeDict.mk "builtins" "int" none) ∧
    type_from_dict sampleEnv (TypeDict.mk "builtins" "int" none) = .ok (int_cls, none) ∧
    (int_cls, (none : Option TypeDetails)).2 = none := by
  have henc : type_to_dict int_cls none = .ok (TypeDict.mk "builtins" "int" none) := by
    simp [type_to_dict, is_union, is_any, is_generic, dunder_module, dunder_args,
      dunder_qualname, int_cls]
  have hdec : type_from_dict sampleEnv (TypeDict.mk "builtins" "int" none)
      = .ok (int_cls, none) := by
    simp [type_from_dict, type_from_dict_validated, sampleEnv, get_name_in_module,
      TypeDict.module, TypeDict.qualname, TypeDict.elem_types, HIDDEN_BUILTIN_TYPES, NoneType,
      isinstance_type, int_cls, TypeDict.get_type_detailss, List.lookup]
  exact ⟨henc, hdec, decode_detail_always_none int_cls none sampleEnv _ _ henc hdec⟩

/-- C10: `maybe_decode_type` returns `None` without consulting the decoder
(the result is the same for every decoder) when its argument is `None` or
the string "null", and returns exactly the decoder's result on every other
string. -/
theorem maybe_decode_type_spec
    (decode : String → Except PyErr (Option (PyObj × Option TypeDetails))) :
    maybe_decode_type decode none = .ok none ∧
    maybe_decode_type decode (some "null") = .ok none ∧
    ∀ s, s ≠ "null" → maybe_decode_type decode (some s) = decode s := by
  refine ⟨rfl, by simp [maybe_decode_type], ?_⟩
  intro s hs
  simp [maybe_decode_type, hs]

/-- Witness for C10: the three cases evaluated with a concrete decoder and
the concrete string "abc". -/
theorem maybe_decode_type_spec_witness :
    maybe_decode_type sample_decoder none = .ok none ∧
    maybe_decode_type sample_decoder (some "null") = .ok none ∧
    maybe_decode_type sample_decoder (some "abc") = sample_decoder "abc" :=
  ⟨(maybe_decode_type_spec sample_decoder).1, (maybe_decode_type_spec sample_decoder).2.1,
    (maybe_decode_type_spec sample_decoder).2.2 "abc" (by decide)⟩
